import Mathlib

/-!
Verification of `ReportEngine/utils/chart_repair_api.py` from the
BettaFish repository, together with the chapter-sanitization behavior
exercised by `tests/test_report_engine_sanitization.py`.

The Python module builds a chart-repair prompt from a widget block and a
list of validation errors, dispatches it to one of four configured LLM
backends, and parses the model response as JSON.  We embed the module
shallowly: JSON values become an inductive type, the Python `settings`
object becomes a record of strings (a `None` setting is modelled as the
empty string, which has the same truthiness in every guard of the
module), and the external LLM client becomes an oracle (`LLMWorld`)
whose calls may either return a response string or raise.  Exceptions
are modelled with `Except`; the `try/except Exception` wrapper of each
repair closure becomes an explicit handler.
-/

set_option autoImplicit false

/-- JSON values, as produced by Python's `json` module.  Numeric
literals are modelled as integers only: no float appears anywhere in
the repository code or in the claims under verification. -/
inductive Json where
  | null : Json
  | bool : Bool → Json
  | num : Int → Json
  | str : String → Json
  | arr : List Json → Json
  | obj : List (String × Json) → Json
deriving Repr

/-- First value bound to key `k` in an association list of object
fields (Python dict lookup; insertion order preserved, as in CPython). -/
def lookupField : List (String × Json) → String → Option Json
  | [], _ => none
  | (k0, v0) :: rest, k => if k0 = k then some v0 else lookupField rest k

/-- `objGet j k` models Python's `j.get(k)` on a dict (and `None` on
anything that is not a dict). -/
def objGet (j : Json) (k : String) : Option Json :=
  match j with
  | .obj fields => lookupField fields k
  | _ => none

/-- Update (or append) the binding of key `k`, keeping field order:
models Python's `d[k] = v`. -/
def setField : List (String × Json) → String → Json → List (String × Json)
  | [], k, v => [(k, v)]
  | (k0, v0) :: rest, k, v =>
      if k0 = k then (k0, v) :: rest else (k0, v0) :: setField rest k v

/-- `objSet j k v` models `j[k] = v` on a dict; non-dicts are returned
unchanged. -/
def objSet (j : Json) (k : String) (v : Json) : Json :=
  match j with
  | .obj fields => .obj (setField fields k v)
  | _ => j

theorem lookupField_setField (fields : List (String × Json)) (k : String) (v : Json) :
    lookupField (setField fields k v) k = some v := by
  induction fields with
  | nil => simp [setField, lookupField]
  | cons hd tl ih =>
      obtain ⟨k0, v0⟩ := hd
      by_cases h : k0 = k
      · simp [setField, lookupField, h]
      · simp [setField, lookupField, h, ih]

theorem objGet_objSet_obj (fields : List (String × Json)) (k : String) (v : Json) :
    objGet (objSet (.obj fields) k v) k = some v := by
  simp [objSet, objGet, lookupField_setField]

/-- Is the value a JSON object (a Python `dict`)? -/
def Json.isObj : Json → Bool
  | .obj _ => true
  | _ => false

/-- Hexadecimal digit character for a value below 16 (lower case, as in
CPython's `json` encoder). -/
def hexDigitChar (n : Nat) : Char :=
  if n < 10 then Char.ofNat (48 + n) else Char.ofNat (87 + n)

/-- Four-digit hexadecimal rendering used by `\u` escapes. -/
def hex4 (n : Nat) : String :=
  String.mk [hexDigitChar ((n / 4096) % 16), hexDigitChar ((n / 256) % 16),
             hexDigitChar ((n / 16) % 16), hexDigitChar (n % 16)]

/-- Escaping of one character inside a JSON string literal, as done by
`json.dumps(..., ensure_ascii=False)`: only the quote, the backslash
and control characters are escaped; non-ASCII characters pass through. -/
def escapeJsonChar (c : Char) : String :=
  if c = '"' then "\\\""
  else if c = '\\' then "\\\\"
  else if c = '\n' then "\\n"
  else if c = '\t' then "\\t"
  else if c = '\r' then "\\r"
  else if c = Char.ofNat 8 then "\\b"
  else if c = Char.ofNat 12 then "\\f"
  else if c.toNat < 32 then "\\u" ++ hex4 c.toNat
  else String.mk [c]

/-- JSON string literal with surrounding quotes. -/
def quoteJsonStr (s : String) : String :=
  "\"" ++ String.join (s.data.map escapeJsonChar) ++ "\""

/-- `2 * d` spaces: the indentation prefix at nesting depth `d` for
`json.dumps(..., indent=2)`. -/
def indentStr (d : Nat) : String :=
  String.mk (List.replicate (2 * d) ' ')

mutual
/-- Serialization of one JSON value at nesting depth `d`, following
`json.dumps(value, ensure_ascii=False, indent=2)`: containers open with
a newline, items are indented two more spaces and separated by ",\n",
keys are followed by ": ", and empty containers collapse to "[]" and
"\x7b\x7d". -/
def dumpsVal : Json → Nat → String
  | .null, _ => "null"
  | .bool true, _ => "true"
  | .bool false, _ => "false"
  | .num n, _ => toString n
  | .str s, _ => quoteJsonStr s
  | .arr [], _ => "[]"
  | .arr (x :: xs), d =>
      "[\n" ++ String.intercalate ",\n" (dumpsItems (x :: xs) (d + 1)) ++
      "\n" ++ indentStr d ++ "]"
  | .obj [], _ => "\x7b\x7d"
  | .obj (f :: fs), d =>
      "\x7b\n" ++ String.intercalate ",\n" (dumpsFields (f :: fs) (d + 1)) ++
      "\n" ++ indentStr d ++ "\x7d"

/-- Rendered array items at depth `d`, each already carrying its
indentation prefix. -/
def dumpsItems : List Json → Nat → List String
  | [], _ => []
  | x :: xs, d => (indentStr d ++ dumpsVal x d) :: dumpsItems xs d

/-- Rendered object fields at depth `d`. -/
def dumpsFields : List (String × Json) → Nat → List String
  | [], _ => []
  | (k, v) :: fs, d =>
      (indentStr d ++ quoteJsonStr k ++ ": " ++ dumpsVal v d) :: dumpsFields fs d
end

/-- `json.dumps(widget_block, ensure_ascii=False, indent=2)` as used by
`build_chart_repair_prompt`. -/
def jsonDumps (j : Json) : String :=
  dumpsVal j 0

/-- Opening-brace character, `'\x7b'`. -/
def lbraceChar : Char := Char.ofNat 123

/-- Closing-brace character, `'\x7d'`. -/
def rbraceChar : Char := Char.ofNat 125

/-- Skip JSON whitespace (space, tab, newline, carriage return). -/
def skipWs : List Char → List Char
  | [] => []
  | c :: cs =>
      if c = ' ' ∨ c = '\t' ∨ c = '\n' ∨ c = '\r' then skipWs cs else c :: cs

/-- Is the character an ASCII decimal digit? -/
def isDigitChar (c : Char) : Bool :=
  48 ≤ c.toNat ∧ c.toNat ≤ 57

/-- Split the longest leading run of decimal digits from the input. -/
def takeDigits : List Char → List Char × List Char
  | [] => ([], [])
  | c :: cs =>
      if isDigitChar c then
        let (ds, rest) := takeDigits cs
        (c :: ds, rest)
      else ([], c :: cs)

/-- Numeric value of a digit string. -/
def digitsToNat : List Char → Nat
  | [] => 0
  | ds => ds.foldl (fun acc c => 10 * acc + (c.toNat - 48)) 0

/-- Value of one hexadecimal digit character, if it is one. -/
def hexVal (c : Char) : Option Nat :=
  if 48 ≤ c.toNat ∧ c.toNat ≤ 57 then some (c.toNat - 48)
  else if 97 ≤ c.toNat ∧ c.toNat ≤ 102 then some (c.toNat - 87)
  else if 65 ≤ c.toNat ∧ c.toNat ≤ 70 then some (c.toNat - 55)
  else none

/-- Body of a JSON string literal after the opening quote: returns the
decoded characters and the input after the closing quote.  Escapes
`\" \\ \/ \b \f \n \r \t \uXXXX` are decoded; a lone surrogate from
`\uXXXX` is not modelled (it maps through `Char.ofNat`'s fallback). -/
def parseStringBody : List Char → Option (List Char × List Char)
  | [] => none
  | c :: rest =>
      if c = '"' then some ([], rest)
      else if c = '\\' then
        match rest with
        | [] => none
        | e :: rest2 =>
            let simpleEsc : Option Char :=
              if e = '"' then some '"'
              else if e = '\\' then some '\\'
              else if e = '/' then some '/'
              else if e = 'n' then some '\n'
              else if e = 't' then some '\t'
              else if e = 'r' then some '\r'
              else if e = 'b' then some (Char.ofNat 8)
              else if e = 'f' then some (Char.ofNat 12)
              else none
            match simpleEsc with
            | some d =>
                match parseStringBody rest2 with
                | some (tail, rem) => some (d :: tail, rem)
                | none => none
            | none =>
                if e = 'u' then
                  match rest2 with
                  | h1 :: h2 :: h3 :: h4 :: rest3 =>
                      match hexVal h1, hexVal h2, hexVal h3, hexVal h4 with
                      | some a, some b, some c3, some d4 =>
                          let code := 4096 * a + 256 * b + 16 * c3 + d4
                          match parseStringBody rest3 with
                          | some (tail, rem) => some (Char.ofNat code :: tail, rem)
                          | none => none
                      | _, _, _, _ => none
                  | _ => none
                else none
      else
        match parseStringBody rest with
        | some (tail, rem) => some (c :: tail, rem)
        | none => none

mutual
/-- One JSON value (fuel-indexed recursive-descent model of CPython's
`json.loads` grammar, restricted to integer numeric literals).  Returns
the value and the unconsumed input, or `none` where `json.loads` would
raise `JSONDecodeError`. -/
def parseVal : Nat → List Char → Option (Json × List Char)
  | 0, _ => none
  | fuel + 1, cs =>
      match skipWs cs with
      | [] => none
      | c :: rest =>
          if c = 'n' then
            match rest with
            | 'u' :: 'l' :: 'l' :: rest2 => some (Json.null, rest2)
            | _ => none
          else if c = 't' then
            match rest with
            | 'r' :: 'u' :: 'e' :: rest2 => some (Json.bool true, rest2)
            | _ => none
          else if c = 'f' then
            match rest with
            | 'a' :: 'l' :: 's' :: 'e' :: rest2 => some (Json.bool false, rest2)
            | _ => none
          else if c = '"' then
            match parseStringBody rest with
            | some (chars, rem) => some (Json.str (String.mk chars), rem)
            | none => none
          else if c = '-' then
            match takeDigits rest with
            | ([], _) => none
            | (ds, rem) => some (Json.num (-(digitsToNat ds : Int)), rem)
          else if isDigitChar c then
            match takeDigits (c :: rest) with
            | (ds, rem) => some (Json.num (digitsToNat ds : Int), rem)
          else if c = '[' then
            match skipWs rest with
            | d :: rest2 =>
                if d = ']' then some (Json.arr [], rest2)
                else
                  match parseItems fuel (d :: rest2) with
                  | some (items, rem) => some (Json.arr items, rem)
                  | none => none
            | [] => none
          else if c = lbraceChar then
            match skipWs rest with
            | d :: rest2 =>
                if d = rbraceChar then some (Json.obj [], rest2)
                else
                  match parseFields fuel (d :: rest2) with
                  | some (fields, rem) => some (Json.obj fields, rem)
                  | none => none
            | [] => none
          else none

/-- Comma-separated array items up to the closing bracket. -/
def parseItems : Nat → List Char → Option (List Json × List Char)
  | 0, _ => none
  | fuel + 1, cs =>
      match parseVal fuel cs with
      | none => none
      | some (v, rest) =>
          match skipWs rest with
          | c :: rest2 =>
              if c = ',' then
                match parseItems fuel rest2 with
                | some (vs, rem) => some (v :: vs, rem)
                | none => none
              else if c = ']' then some ([v], rest2)
              else none
          | [] => none

/-- Comma-separated `"key": value` fields up to the closing brace. -/
def parseFields : Nat → List Char → Option (List (String × Json) × List Char)
  | 0, _ => none
  | fuel + 1, cs =>
      match skipWs cs with
      | c :: rest =>
          if c = '"' then
            match parseStringBody rest with
            | some (kchars, rest2) =>
                match skipWs rest2 with
                | d :: rest3 =>
                    if d = ':' then
                      match parseVal fuel rest3 with
                      | some (v, rest4) =>
                          match skipWs rest4 with
                          | e :: rest5 =>
                              if e = ',' then
                                match parseFields fuel rest5 with
                                | some (fs, rem) =>
                                    some ((String.mk kchars, v) :: fs, rem)
                                | none => none
                              else if e = rbraceChar then
                                some ([(String.mk kchars, v)], rest5)
                              else none
                          | [] => none
                      | none => none
                    else none
                | [] => none
            | none => none
          else none
      | [] => none
end

/-- Python exception value (only its message is observable here). -/
inductive PyExn where
  | mk : String → PyExn

/-- `json.loads(s)`: parse one JSON document and require only
whitespace after it, raising `JSONDecodeError` otherwise.  In
particular `json_loads ""` raises. -/
def json_loads (s : String) : Except PyExn Json :=
  match parseVal (s.length + 1) s.data with
  | none => .error (PyExn.mk "JSONDecodeError")
  | some (v, rest) =>
      match skipWs rest with
      | [] => .ok v
      | _ => .error (PyExn.mk "Extra data")

/-- The configuration attributes of `ReportEngine.utils.config.settings`
read by `chart_repair_api.py`.  A setting that is `None` in Python is
modelled as `""`: both are falsy in every guard (`if settings.X and
settings.Y`, `settings.Z or "gpt-4"`) of the module. -/
structure Settings where
  REPORT_ENGINE_API_KEY : String
  REPORT_ENGINE_BASE_URL : String
  REPORT_ENGINE_MODEL_NAME : String
  FORUM_HOST_API_KEY : String
  FORUM_HOST_BASE_URL : String
  FORUM_HOST_MODEL_NAME : String
  INSIGHT_ENGINE_API_KEY : String
  INSIGHT_ENGINE_BASE_URL : String
  INSIGHT_ENGINE_MODEL_NAME : String
  MEDIA_ENGINE_API_KEY : String
  MEDIA_ENGINE_BASE_URL : String
  MEDIA_ENGINE_MODEL_NAME : String

/-- Python truthiness of a string: only the empty string (and the
`None` it also models) is falsy. -/
def pyTruthyStr (s : String) : Bool :=
  !(s == "")

/-- Python's `a or b` on strings: `b` when `a` is falsy, else `a`. -/
def pyOrStr (a b : String) : String :=
  if pyTruthyStr a then a else b

/-- One call to `LLMClient(...).invoke(...)`: the client configuration
triple together with the invocation arguments (system prompt, user
prompt, temperature, top_p — the latter two as exact rationals, since
only the literals `0.0` and `0.05` ever occur). -/
structure InvokeCall where
  apiKey : String
  baseUrl : String
  modelName : String
  systemPrompt : String
  userPrompt : String
  temperature : ℚ
  topP : ℚ

/-- The external world as the module observes it: constructing an
`LLMClient` may raise or succeed, and invoking the model may raise or
return a response string.  The `from ReportEngine.llms import LLMClient`
statement and the logger are modelled as non-failing (an import failure
would be one more exception caught by the same handler). -/
structure LLMWorld where
  newClient : String → String → String → Except PyExn Unit
  invoke : InvokeCall → Except PyExn String

/-- A world in which client construction succeeds and every invocation
returns the fixed response `resp`. -/
def constWorld (resp : String) : LLMWorld where
  newClient := fun _ _ _ => .ok ()
  invoke := fun _ => .ok resp

/-- `CHART_REPAIR_SYSTEM_PROMPT` from `chart_repair_api.py`, verbatim
(braces written `\x7b`/`\x7d`). -/
def CHART_REPAIR_SYSTEM_PROMPT : String :=
  "你是一个专业的图表数据修复助手。你的任务是修复Chart.js图表数据中的格式错误，确保图表能够正常渲染。\n\n**Chart.js标准数据格式：**\n\n1. 标准图表（line, bar, pie, doughnut, radar, polarArea）：\n```json\n\x7b\n  \"type\": \"widget\",\n  \"widgetType\": \"chart.js/bar\",\n  \"widgetId\": \"chart-001\",\n  \"props\": \x7b\n    \"type\": \"bar\",\n    \"title\": \"图表标题\",\n    \"options\": \x7b\n      \"responsive\": true,\n      \"plugins\": \x7b\n        \"legend\": \x7b\n          \"display\": true\n        \x7d\n      \x7d\n    \x7d\n  \x7d,\n  \"data\": \x7b\n    \"labels\": [\"A\", \"B\", \"C\"],\n    \"datasets\": [\n      \x7b\n        \"label\": \"系列1\",\n        \"data\": [10, 20, 30]\n      \x7d\n    ]\n  \x7d\n\x7d\n```\n\n2. 特殊图表（scatter, bubble）：\n```json\n\x7b\n  \"data\": \x7b\n    \"datasets\": [\n      \x7b\n        \"label\": \"系列1\",\n        \"data\": [\n          \x7b\"x\": 10, \"y\": 20\x7d,\n          \x7b\"x\": 15, \"y\": 25\x7d\n        ]\n      \x7d\n    ]\n  \x7d\n\x7d\n```\n\n**修复原则：**\n1. **宁愿不改，也不要改错** - 如果不确定如何修复，保持原始数据\n2. **最小改动** - 只修复明确的错误，不要过度修改\n3. **保持数据完整性** - 不要丢失原始数据\n4. **验证修复结果** - 确保修复后符合Chart.js格式\n\n**常见错误及修复方法：**\n1. 缺少labels字段 → 根据数据生成默认labels\n2. datasets不是数组 → 转换为数组格式\n3. 数据长度不匹配 → 截断或补null\n4. 非数值数据 → 尝试转换或设为null\n5. 缺少必需字段 → 添加默认值\n\n请根据错误信息修复图表数据，并返回修复后的完整widget block（JSON格式）。\n"

/-- The f-string template of `build_chart_repair_prompt` before
`{block_json}`. -/
def promptHead : String :=
  "请修复以下图表数据中的错误：\n\n**原始数据：**\n```json\n"

/-- The template part between `{block_json}` and `{errors_text}`. -/
def promptMid : String :=
  "\n```\n\n**检测到的错误：**\n"

/-- The template part after `{errors_text}`. -/
def promptTail : String :=
  "\n\n**要求：**\n1. 返回修复后的完整widget block（JSON格式）\n2. 只修复明确的错误，保持其他数据不变\n3. 确保修复后的数据符合Chart.js格式要求\n4. 如果无法确定如何修复，保持原始数据\n\n**重要的输出格式要求：**\n1. 只返回纯JSON对象，不要添加任何说明文字\n2. 不要使用```json```标记包裹\n3. 确保JSON语法完全正确\n4. 所有字符串使用双引号\n"

/-- `\"\\n\".join(f\"- \x7berror\x7d\" for error in validation_errors)`. -/
def errorsText (validation_errors : List String) : String :=
  String.intercalate "\n" (validation_errors.map (fun error => "- " ++ error))

/-- `build_chart_repair_prompt(widget_block, validation_errors)`:
serialize the block with `json.dumps(..., ensure_ascii=False, indent=2)`,
render the error bullet list, and interpolate both into the template. -/
def build_chart_repair_prompt (widget_block : Json) (validation_errors : List String) : String :=
  promptHead ++ jsonDumps widget_block ++ promptMid ++ errorsText validation_errors ++ promptTail

/-- The one `client.invoke` call a repair closure makes at the given
configuration triple and input: the chart-repair system prompt, the
built user prompt, temperature `0.0` and top_p `0.05`. -/
def invokeCallFor (apiKey baseUrl modelName : String) (widget_block : Json)
    (errors : List String) : InvokeCall :=
  { apiKey := apiKey, baseUrl := baseUrl, modelName := modelName,
    systemPrompt := CHART_REPAIR_SYSTEM_PROMPT,
    userPrompt := build_chart_repair_prompt widget_block errors,
    temperature := 0, topP := 1/20 }

/-- `repair_with_report_engine` (lines 145-173).  The `try:` body is an
explicit `Except` computation: construct the client, build the prompt,
invoke the model with temperature `0.0` and top_p `0.05`, return `None`
on a falsy response, else parse the response as JSON; the
`except Exception` clause turns any raise into a logged `None`. -/
def repair_with_report_engine (s : Settings) (w : LLMWorld)
    (widget_block : Json) (errors : List String) : Except PyExn (Option Json) :=
  let tryBody : Except PyExn (Option Json) :=
    match w.newClient s.REPORT_ENGINE_API_KEY s.REPORT_ENGINE_BASE_URL
        (pyOrStr s.REPORT_ENGINE_MODEL_NAME "gpt-4") with
    | .error e => .error e
    | .ok _client =>
        let prompt := build_chart_repair_prompt widget_block errors
        match w.invoke
            { apiKey := s.REPORT_ENGINE_API_KEY, baseUrl := s.REPORT_ENGINE_BASE_URL,
              modelName := pyOrStr s.REPORT_ENGINE_MODEL_NAME "gpt-4",
              systemPrompt := CHART_REPAIR_SYSTEM_PROMPT, userPrompt := prompt,
              temperature := 0, topP := 1/20 } with
        | .error e => .error e
        | .ok response =>
            if pyTruthyStr response = false then .ok none
            else
              match json_loads response with
              | .error e => .error e
              | .ok repaired => .ok (some repaired)
  match tryBody with
  | .error _e => .ok none
  | .ok r => .ok r

/-- `repair_with_forum_engine` (lines 179-206): textually the same body
at the ForumHost configuration. -/
def repair_with_forum_engine (s : Settings) (w : LLMWorld)
    (widget_block : Json) (errors : List String) : Except PyExn (Option Json) :=
  let tryBody : Except PyExn (Option Json) :=
    match w.newClient s.FORUM_HOST_API_KEY s.FORUM_HOST_BASE_URL
        (pyOrStr s.FORUM_HOST_MODEL_NAME "gpt-4") with
    | .error e => .error e
    | .ok _client =>
        let prompt := build_chart_repair_prompt widget_block errors
        match w.invoke
            { apiKey := s.FORUM_HOST_API_KEY, baseUrl := s.FORUM_HOST_BASE_URL,
              modelName := pyOrStr s.FORUM_HOST_MODEL_NAME "gpt-4",
              systemPrompt := CHART_REPAIR_SYSTEM_PROMPT, userPrompt := prompt,
              temperature := 0, topP := 1/20 } with
        | .error e => .error e
        | .ok response =>
            if pyTruthyStr response = false then .ok none
            else
              match json_loads response with
              | .error e => .error e
              | .ok repaired => .ok (some repaired)
  match tryBody with
  | .error _e => .ok none
  | .ok r => .ok r

/-- `repair_with_insight_engine` (lines 212-239): textually the same
body at the InsightEngine configuration. -/
def repair_with_insight_engine (s : Settings) (w : LLMWorld)
    (widget_block : Json) (errors : List String) : Except PyExn (Option Json) :=
  let tryBody : Except PyExn (Option Json) :=
    match w.newClient s.INSIGHT_ENGINE_API_KEY s.INSIGHT_ENGINE_BASE_URL
        (pyOrStr s.INSIGHT_ENGINE_MODEL_NAME "gpt-4") with
    | .error e => .error e
    | .ok _client =>
        let prompt := build_chart_repair_prompt widget_block errors
        match w.invoke
            { apiKey := s.INSIGHT_ENGINE_API_KEY, baseUrl := s.INSIGHT_ENGINE_BASE_URL,
              modelName := pyOrStr s.INSIGHT_ENGINE_MODEL_NAME "gpt-4",
              systemPrompt := CHART_REPAIR_SYSTEM_PROMPT, userPrompt := prompt,
              temperature := 0, topP := 1/20 } with
        | .error e => .error e
        | .ok response =>
            if pyTruthyStr response = false then .ok none
            else
              match json_loads response with
              | .error e => .error e
              | .ok repaired => .ok (some repaired)
  match tryBody with
  | .error _e => .ok none
  | .ok r => .ok r

/-- `repair_with_media_engine` (lines 245-272): textually the same body
at the MediaEngine configuration. -/
def repair_with_media_engine (s : Settings) (w : LLMWorld)
    (widget_block : Json) (errors : List String) : Except PyExn (Option Json) :=
  let tryBody : Except PyExn (Option Json) :=
    match w.newClient s.MEDIA_ENGINE_API_KEY s.MEDIA_ENGINE_BASE_URL
        (pyOrStr s.MEDIA_ENGINE_MODEL_NAME "gpt-4") with
    | .error e => .error e
    | .ok _client =>
        let prompt := build_chart_repair_prompt widget_block errors
        match w.invoke
            { apiKey := s.MEDIA_ENGINE_API_KEY, baseUrl := s.MEDIA_ENGINE_BASE_URL,
              modelName := pyOrStr s.MEDIA_ENGINE_MODEL_NAME "gpt-4",
              systemPrompt := CHART_REPAIR_SYSTEM_PROMPT, userPrompt := prompt,
              temperature := 0, topP := 1/20 } with
        | .error e => .error e
        | .ok response =>
            if pyTruthyStr response = false then .ok none
            else
              match json_loads response with
              | .error e => .error e
              | .ok repaired => .ok (some repaired)
  match tryBody with
  | .error _e => .ok none
  | .ok r => .ok r

/-- Tags for the four repair closures that `create_llm_repair_functions`
may append.  A tag `e` denotes the closure `repairFunction e`. -/
inductive Engine where
  | report
  | forum
  | insight
  | media
deriving DecidableEq, Repr

/-- The closure denoted by an engine tag. -/
def repairFunction : Engine → Settings → LLMWorld → Json → List String → Except PyExn (Option Json)
  | .report => repair_with_report_engine
  | .forum => repair_with_forum_engine
  | .insight => repair_with_insight_engine
  | .media => repair_with_media_engine

/-- The `(API key, base URL)` settings pair guarding an engine's block. -/
def engineApiKey : Engine → Settings → String
  | .report, s => s.REPORT_ENGINE_API_KEY
  | .forum, s => s.FORUM_HOST_API_KEY
  | .insight, s => s.INSIGHT_ENGINE_API_KEY
  | .media, s => s.MEDIA_ENGINE_API_KEY

/-- The base-URL setting guarding an engine's block. -/
def engineBaseUrl : Engine → Settings → String
  | .report, s => s.REPORT_ENGINE_BASE_URL
  | .forum, s => s.FORUM_HOST_BASE_URL
  | .insight, s => s.INSIGHT_ENGINE_BASE_URL
  | .media, s => s.MEDIA_ENGINE_BASE_URL

/-- The model-name setting an engine's closure reads (before the
`or "gpt-4"` default). -/
def engineModelName : Engine → Settings → String
  | .report, s => s.REPORT_ENGINE_MODEL_NAME
  | .forum, s => s.FORUM_HOST_MODEL_NAME
  | .insight, s => s.INSIGHT_ENGINE_MODEL_NAME
  | .media, s => s.MEDIA_ENGINE_MODEL_NAME

/-- `create_llm_repair_functions()` (lines 128-279): each engine's
closure is appended exactly when its API key and base URL are both
truthy, in the fixed order ReportEngine, ForumEngine, InsightEngine,
MediaEngine.  The returned list of closures is represented by the list
of engine tags. -/
def create_llm_repair_functions (s : Settings) : List Engine :=
  (if pyTruthyStr s.REPORT_ENGINE_API_KEY && pyTruthyStr s.REPORT_ENGINE_BASE_URL
    then [Engine.report] else []) ++
  (if pyTruthyStr s.FORUM_HOST_API_KEY && pyTruthyStr s.FORUM_HOST_BASE_URL
    then [Engine.forum] else []) ++
  (if pyTruthyStr s.INSIGHT_ENGINE_API_KEY && pyTruthyStr s.INSIGHT_ENGINE_BASE_URL
    then [Engine.insight] else []) ++
  (if pyTruthyStr s.MEDIA_ENGINE_API_KEY && pyTruthyStr s.MEDIA_ENGINE_BASE_URL
    then [Engine.media] else [])

/-- The `try:` body common to the four closures, at an arbitrary
configuration triple: the refinement target against which the concrete
closures are compared.  An `Except.error` result is an exception
escaping the `try` body. -/
def tryRepairBody (apiKey baseUrl modelName : String) (w : LLMWorld)
    (widget_block : Json) (errors : List String) : Except PyExn (Option Json) :=
  match w.newClient apiKey baseUrl modelName with
  | .error e => .error e
  | .ok _client =>
      match w.invoke (invokeCallFor apiKey baseUrl modelName widget_block errors) with
      | .error e => .error e
      | .ok response =>
          if pyTruthyStr response = false then .ok none
          else
            match json_loads response with
            | .error e => .error e
            | .ok repaired => .ok (some repaired)

/-- Generic form of a whole repair closure (the `try` body above under
the `except Exception: return None` handler) at an arbitrary
configuration triple. -/
def repairGeneric (apiKey baseUrl modelName : String) (w : LLMWorld)
    (widget_block : Json) (errors : List String) : Except PyExn (Option Json) :=
  match tryRepairBody apiKey baseUrl modelName w widget_block errors with
  | .error _e => .ok none
  | .ok r => .ok r

/-- The two argument objects a repair closure receives; in Python they
are passed by reference, so mutation would be observable to the caller. -/
structure ArgState where
  widget_block : Json
  errors : List String

/-- State-passing semantics of the shared closure body, for the frame
property: every primitive the body applies to its arguments —
`json.dumps` inside `build_chart_repair_prompt`, the generator over
`errors`, `client.invoke` (which receives only the two prompt strings),
and `json.loads` (which reads a fresh response string) — reads without
writing, and the body itself contains no assignment to `widget_block`
or `errors`, so each step passes the argument state through. -/
def tryRepairBodySt (apiKey baseUrl modelName : String) (w : LLMWorld)
    (st : ArgState) : Except PyExn (Option Json) × ArgState :=
  match w.newClient apiKey baseUrl modelName with
  | .error e => (.error e, st)
  | .ok _client =>
      match w.invoke (invokeCallFor apiKey baseUrl modelName st.widget_block st.errors) with
      | .error e => (.error e, st)
      | .ok response =>
          if pyTruthyStr response = false then (.ok none, st)
          else
            match json_loads response with
            | .error e => (.error e, st)
            | .ok repaired => (.ok (some repaired), st)

/-- A whole repair closure under the state-passing semantics: the
`except` handler also touches neither argument. -/
def repairEngineSt (apiKey baseUrl modelName : String) (w : LLMWorld)
    (st : ArgState) : Except PyExn (Option Json) × ArgState :=
  match tryRepairBodySt apiKey baseUrl modelName w st with
  | (.error _e, st1) => (.ok none, st1)
  | (.ok r, st1) => (.ok r, st1)

/-- Paragraph inline of the given text, in the shape the regression
test `test_table_rows_scalar_values_expanded` inspects
(`cell["blocks"][0]["inlines"][0]["text"]`). -/
def mkTextInline (t : String) : Json :=
  .obj [("type", .str "text"), ("text", .str t)]

/-- A single paragraph block wrapping one text inline. -/
def mkParagraphBlock (t : String) : Json :=
  .obj [("type", .str "paragraph"), ("inlines", .arr [mkTextInline t])]

/-- Python `str()` of a scalar JSON value, used when a bare table row is
expanded into a cell. -/
def pyStr : Json → String
  | .str s => s
  | .num n => toString n
  | .bool true => "True"
  | .bool false => "False"
  | .null => "None"
  | .arr _ => ""
  | .obj _ => ""

/-- The `text` a repaired empty cell falls back to: the cell's own
`text` field when it is a string, else the empty string. -/
def cellFallbackText (cell : Json) : String :=
  match objGet cell "text" with
  | some (.str t) => t
  | _ => ""

/-- Does the cell's `blocks` entry need repair: absent, `None`, or the
empty list. -/
def cellBlocksMissing (cell : Json) : Bool :=
  match objGet cell "blocks" with
  | none => true
  | some .null => true
  | some (.arr []) => true
  | _ => false

/-- Modelled from the spec: the table-cell normalization of
`ChapterGenerationNode._sanitize_chapter_blocks` (the method itself is
not under `src/`; only its regression test is).  Spec: "empty/absent
table-cell block lists are replaced with a single paragraph block". -/
def sanitizeCell (cell : Json) : Json :=
  match cell with
  | .obj _ =>
      if cellBlocksMissing cell then
        objSet cell "blocks" (.arr [mkParagraphBlock (cellFallbackText cell)])
      else cell
  | _ => cell

/-- Modelled from the spec: row normalization of
`_sanitize_chapter_blocks`.  Spec: "scalar table rows are expanded into
a single-cell row whose paragraph text equals the scalar value"; row
objects keep their shape with each cell normalized; a row that is
itself a list is left as it is (the spec states nothing about it). -/
def sanitizeRow (row : Json) : Json :=
  match row with
  | .obj _ =>
      match objGet row "cells" with
      | some (.arr cells) => objSet row "cells" (.arr (cells.map sanitizeCell))
      | _ => row
  | .arr items => .arr items
  | scalar =>
      .obj [("cells", .arr [.obj [("blocks", .arr [mkParagraphBlock (pyStr scalar)])]])]

/-- Modelled from the spec: block normalization of
`_sanitize_chapter_blocks`; only `table` blocks with a `rows` list are
rewritten, row by row. -/
def sanitizeBlock (b : Json) : Json :=
  match objGet b "type", objGet b "rows" with
  | some (.str t), some (.arr rows) =>
      if t = "table" then objSet b "rows" (.arr (rows.map sanitizeRow)) else b
  | _, _ => b

/-- Modelled from the spec: `_sanitize_chapter_blocks(chapter)` — the
chapter-sanitization helper absent from `src/`, reconstructed from the
spec's two normalization rules and the shapes its regression test
inspects.  It rewrites each block of the chapter's `blocks` list. -/
def sanitize_chapter_blocks (chapter : Json) : Json :=
  match objGet chapter "blocks" with
  | some (.arr blocks) => objSet chapter "blocks" (.arr (blocks.map sanitizeBlock))
  | _ => chapter

/-- Is a dataset entry numeric or null (one of the invariants the
prompt asks the model for)? -/
def numericOrNull : Json → Bool
  | .num _ => true
  | .null => true
  | _ => false

/-- One dataset object: its `data` must be an array of the length of
`labels` whose entries are numeric or null. -/
def datasetOk (labelsLen : Nat) : Json → Bool
  | .obj fields =>
      match lookupField fields "data" with
      | some (.arr ds) => ds.length = labelsLen && ds.all numericOrNull
      | _ => false
  | _ => false

/-- The widget-block invariants the system prompt requests (labels
length matching each dataset's data length, numeric-or-null entries,
`datasets` an array): stated here only to exhibit that the repair
closures never check them. -/
def widgetInvariants (v : Json) : Bool :=
  match objGet v "data" with
  | some dataObj =>
      match objGet dataObj "labels", objGet dataObj "datasets" with
      | some (.arr labels), some (.arr dss) => dss.all (datasetOk labels.length)
      | _, _ => false
  | _ => false

theorem json_loads_empty : json_loads "" = Except.error (PyExn.mk "JSONDecodeError") := rfl

theorem repairFunction_eq_generic (e : Engine) (s : Settings) (w : LLMWorld)
    (wb : Json) (errs : List String) :
    repairFunction e s w wb errs =
      repairGeneric (engineApiKey e s) (engineBaseUrl e s)
        (pyOrStr (engineModelName e s) "gpt-4") w wb errs := by
  cases e <;> rfl

theorem repairGeneric_ok (k u m : String) (w : LLMWorld) (wb : Json) (errs : List String) :
    ∃ r : Option Json, repairGeneric k u m w wb errs = Except.ok r := by
  unfold repairGeneric
  cases tryRepairBody k u m w wb errs <;> exact ⟨_, rfl⟩

/-- The settings record used by the concrete witnesses: every engine
has an API key and a base URL, no model name is set. -/
def settingsAllConfigured : Settings :=
  ⟨"rk", "ru", "", "fk", "fu", "", "ik", "iu", "", "mk", "mu", ""⟩

/-- C3: an engine's repair closure is in the list returned by
`create_llm_repair_functions` exactly when both its API key and base
URL settings are truthy; when no engine has both, the list is empty. -/
theorem claim_engine_list_iff_configured (s : Settings) :
    (∀ e : Engine, e ∈ create_llm_repair_functions s ↔
        (pyTruthyStr (engineApiKey e s) = true ∧
         pyTruthyStr (engineBaseUrl e s) = true)) ∧
    ((∀ e : Engine, ¬(pyTruthyStr (engineApiKey e s) = true ∧
         pyTruthyStr (engineBaseUrl e s) = true)) →
      create_llm_repair_functions s = []) := by
  have hmem : ∀ e : Engine, e ∈ create_llm_repair_functions s ↔
      (pyTruthyStr (engineApiKey e s) = true ∧
       pyTruthyStr (engineBaseUrl e s) = true) := by
    intro e
    cases e <;>
      (simp only [create_llm_repair_functions, engineApiKey, engineBaseUrl] ;
       split_ifs <;> simp_all [List.mem_append])
  refine ⟨hmem, fun hnone => ?_⟩
  refine List.eq_nil_iff_forall_not_mem.mpr (fun e hm => hnone e ((hmem e).mp hm))

/-- Witness for C3: one configured engine is a member; the fully
unconfigured settings yield the empty list. -/
theorem claim_engine_list_iff_configured_witness :
    Engine.report ∈ create_llm_repair_functions settingsAllConfigured ∧
    create_llm_repair_functions ⟨"", "", "", "", "", "", "", "", "", "", "", ""⟩ = [] :=
  ⟨((claim_engine_list_iff_configured settingsAllConfigured).1 Engine.report).mpr
      (by decide),
   (claim_engine_list_iff_configured ⟨"", "", "", "", "", "", "", "", "", "", "", ""⟩).2
      (fun e => by cases e <;> decide)⟩

/-- C4: the four backend repair functions are behaviorally identical up
to the configuration triple they read — each equals the generic
closure `repairGeneric` (build the repair prompt, invoke the model
with temperature `0.0` and top_p `0.05`, parse the response as JSON)
applied to its own API key, base URL and defaulted model name. -/
theorem claim_four_engines_equal_generic (s : Settings) (w : LLMWorld)
    (wb : Json) (errs : List String) :
    repair_with_report_engine s w wb errs =
      repairGeneric s.REPORT_ENGINE_API_KEY s.REPORT_ENGINE_BASE_URL
        (pyOrStr s.REPORT_ENGINE_MODEL_NAME "gpt-4") w wb errs ∧
    repair_with_forum_engine s w wb errs =
      repairGeneric s.FORUM_HOST_API_KEY s.FORUM_HOST_BASE_URL
        (pyOrStr s.FORUM_HOST_MODEL_NAME "gpt-4") w wb errs ∧
    repair_with_insight_engine s w wb errs =
      repairGeneric s.INSIGHT_ENGINE_API_KEY s.INSIGHT_ENGINE_BASE_URL
        (pyOrStr s.INSIGHT_ENGINE_MODEL_NAME "gpt-4") w wb errs ∧
    repair_with_media_engine s w wb errs =
      repairGeneric s.MEDIA_ENGINE_API_KEY s.MEDIA_ENGINE_BASE_URL
        (pyOrStr s.MEDIA_ENGINE_MODEL_NAME "gpt-4") w wb errs :=
  ⟨rfl, rfl, rfl, rfl⟩


theorem repairGeneric_client_error (k u m : String) (w : LLMWorld) (wb : Json)
    (errs : List String) (err : PyExn) (hc : w.newClient k u m = Except.error err) :
    repairGeneric k u m w wb errs = Except.ok none := by
  unfold repairGeneric tryRepairBody
  rw [hc]

theorem repairGeneric_invoke_error (k u m : String) (w : LLMWorld) (wb : Json)
    (errs : List String) (u2 : Unit) (err : PyExn)
    (hc : w.newClient k u m = Except.ok u2)
    (hi : w.invoke (invokeCallFor k u m wb errs) = Except.error err) :
    repairGeneric k u m w wb errs = Except.ok none := by
  unfold repairGeneric tryRepairBody
  rw [hc, hi]

theorem repairGeneric_falsy (k u m : String) (w : LLMWorld) (wb : Json)
    (errs : List String) (u2 : Unit) (resp : String)
    (hc : w.newClient k u m = Except.ok u2)
    (hi : w.invoke (invokeCallFor k u m wb errs) = Except.ok resp)
    (hf : pyTruthyStr resp = false) :
    repairGeneric k u m w wb errs = Except.ok none := by
  unfold repairGeneric tryRepairBody
  rw [hc, hi]
  simp [hf]

theorem repairGeneric_parse_error (k u m : String) (w : LLMWorld) (wb : Json)
    (errs : List String) (u2 : Unit) (resp : String) (err : PyExn)
    (hc : w.newClient k u m = Except.ok u2)
    (hi : w.invoke (invokeCallFor k u m wb errs) = Except.ok resp)
    (hf : pyTruthyStr resp = true)
    (hp : json_loads resp = Except.error err) :
    repairGeneric k u m w wb errs = Except.ok none := by
  unfold repairGeneric tryRepairBody
  rw [hc, hi]
  simp [hf, hp]

theorem repairGeneric_parse_ok (k u m : String) (w : LLMWorld) (wb : Json)
    (errs : List String) (u2 : Unit) (resp : String) (v : Json)
    (hc : w.newClient k u m = Except.ok u2)
    (hi : w.invoke (invokeCallFor k u m wb errs) = Except.ok resp)
    (hf : pyTruthyStr resp = true)
    (hp : json_loads resp = Except.ok v) :
    repairGeneric k u m w wb errs = Except.ok (some v) := by
  unfold repairGeneric tryRepairBody
  rw [hc, hi]
  simp [hf, hp]

/-- A world in which both client construction and model invocation
raise. -/
def raisingWorld : LLMWorld where
  newClient := fun _ _ _ => .error (PyExn.mk "ConnectionError")
  invoke := fun _ => .error (PyExn.mk "ConnectionError")

/-- C1: every configured backend repair function returned by
`create_llm_repair_functions` returns normally on every input and in
every world, and whenever an exception is raised during the attempt —
whether by the `try` body as a whole, by client creation, by the model
invocation, or by JSON parsing of the response — the exception is
caught and the result is exactly `None`; no exception propagates to
the caller. -/
theorem claim_repair_never_propagates (s : Settings) (e : Engine)
    (_he : e ∈ create_llm_repair_functions s) (w : LLMWorld) (wb : Json)
    (errs : List String) :
    (∃ r : Option Json, repairFunction e s w wb errs = Except.ok r) ∧
    (∀ err : PyExn,
        tryRepairBody (engineApiKey e s) (engineBaseUrl e s)
            (pyOrStr (engineModelName e s) "gpt-4") w wb errs = Except.error err →
        repairFunction e s w wb errs = Except.ok none) ∧
    (∀ err : PyExn,
        w.newClient (engineApiKey e s) (engineBaseUrl e s)
            (pyOrStr (engineModelName e s) "gpt-4") = Except.error err →
        repairFunction e s w wb errs = Except.ok none) ∧
    (∀ (u2 : Unit) (err : PyExn),
        w.newClient (engineApiKey e s) (engineBaseUrl e s)
            (pyOrStr (engineModelName e s) "gpt-4") = Except.ok u2 →
        w.invoke (invokeCallFor (engineApiKey e s) (engineBaseUrl e s)
            (pyOrStr (engineModelName e s) "gpt-4") wb errs) = Except.error err →
        repairFunction e s w wb errs = Except.ok none) ∧
    (∀ (u2 : Unit) (resp : String) (err : PyExn),
        w.newClient (engineApiKey e s) (engineBaseUrl e s)
            (pyOrStr (engineModelName e s) "gpt-4") = Except.ok u2 →
        w.invoke (invokeCallFor (engineApiKey e s) (engineBaseUrl e s)
            (pyOrStr (engineModelName e s) "gpt-4") wb errs) = Except.ok resp →
        json_loads resp = Except.error err →
        repairFunction e s w wb errs = Except.ok none) := by
  refine ⟨?_, ?_, ?_, ?_, ?_⟩
  · rw [repairFunction_eq_generic]
    exact repairGeneric_ok _ _ _ _ _ _
  · intro err htry
    rw [repairFunction_eq_generic]
    unfold repairGeneric
    rw [htry]
  · intro err hc
    rw [repairFunction_eq_generic]
    exact repairGeneric_client_error _ _ _ _ _ _ _ hc
  · intro u2 err hc hi
    rw [repairFunction_eq_generic]
    exact repairGeneric_invoke_error _ _ _ _ _ _ _ _ hc hi
  · intro u2 resp err hc hi hp
    rw [repairFunction_eq_generic]
    cases hf : pyTruthyStr resp with
    | false => exact repairGeneric_falsy _ _ _ _ _ _ _ _ hc hi hf
    | true => exact repairGeneric_parse_error _ _ _ _ _ _ _ _ _ hc hi hf hp

/-- Witness for C1: in the world whose client constructor raises the
result is `None`, and in the world answering an unparsable response
(so `json.loads` raises) the result is `None`. -/
theorem claim_repair_never_propagates_witness :
    repairFunction Engine.report settingsAllConfigured raisingWorld
      (Json.obj []) [] = Except.ok none ∧
    repairFunction Engine.insight settingsAllConfigured (constWorld "not json")
      (Json.obj []) [] = Except.ok none :=
  ⟨(claim_repair_never_propagates settingsAllConfigured Engine.report (by decide)
      raisingWorld (Json.obj []) []).2.2.1 (PyExn.mk "ConnectionError") rfl,
   (claim_repair_never_propagates settingsAllConfigured Engine.insight (by decide)
      (constWorld "not json") (Json.obj []) []).2.2.2.2 () "not json"
      (PyExn.mk "JSONDecodeError") rfl rfl rfl⟩

/-- C2: every closure in the returned list, on any `(widget_block,
errors)` input and in any world, returns either `None` or a repaired
block, and a repaired block is always exactly the JSON value parsed
from the model's response to the repair invocation; no other outcome is
possible. -/
theorem claim_repair_contract (s : Settings) (e : Engine)
    (_he : e ∈ create_llm_repair_functions s) (w : LLMWorld) (wb : Json)
    (errs : List String) :
    ∃ r : Option Json,
      repairFunction e s w wb errs = Except.ok r ∧
      ∀ v : Json, r = some v →
        ∃ resp : String,
          w.invoke (invokeCallFor (engineApiKey e s) (engineBaseUrl e s)
              (pyOrStr (engineModelName e s) "gpt-4") wb errs) = Except.ok resp ∧
          json_loads resp = Except.ok v := by
  rw [repairFunction_eq_generic]
  cases hc : w.newClient (engineApiKey e s) (engineBaseUrl e s)
      (pyOrStr (engineModelName e s) "gpt-4") with
  | error err =>
      exact ⟨none, repairGeneric_client_error _ _ _ _ _ _ _ hc, by simp⟩
  | ok u2 =>
      cases hi : w.invoke (invokeCallFor (engineApiKey e s) (engineBaseUrl e s)
          (pyOrStr (engineModelName e s) "gpt-4") wb errs) with
      | error err =>
          exact ⟨none, repairGeneric_invoke_error _ _ _ _ _ _ _ _ hc hi, by simp⟩
      | ok resp =>
          cases hf : pyTruthyStr resp with
          | false =>
              exact ⟨none, repairGeneric_falsy _ _ _ _ _ _ _ _ hc hi hf, by simp⟩
          | true =>
              cases hp : json_loads resp with
              | error err =>
                  exact ⟨none, repairGeneric_parse_error _ _ _ _ _ _ _ _ _ hc hi hf hp,
                    by simp⟩
              | ok v =>
                  refine ⟨some v, repairGeneric_parse_ok _ _ _ _ _ _ _ _ _ hc hi hf hp, ?_⟩
                  intro v2 hv2
                  cases hv2
                  exact ⟨resp, rfl, hp⟩

/-- Witness for C2 at a concrete configuration, world and input. -/
theorem claim_repair_contract_witness :
    ∃ r : Option Json,
      repairFunction Engine.media settingsAllConfigured (constWorld "true")
        (Json.obj []) ["err"] = Except.ok r ∧
      ∀ v : Json, r = some v →
        ∃ resp : String,
          (constWorld "true").invoke (invokeCallFor
              (engineApiKey Engine.media settingsAllConfigured)
              (engineBaseUrl Engine.media settingsAllConfigured)
              (pyOrStr (engineModelName Engine.media settingsAllConfigured) "gpt-4")
              (Json.obj []) ["err"]) = Except.ok resp ∧
          json_loads resp = Except.ok v :=
  claim_repair_contract settingsAllConfigured Engine.media (by decide)
    (constWorld "true") (Json.obj []) ["err"]

/-- In the world that always answers `resp`, a repair closure returns
exactly the value `resp` parses to, whenever it parses at all. -/
theorem repair_constWorld_of_parse (s : Settings) (e : Engine) (wb : Json)
    (errs : List String) (resp : String) (v : Json)
    (hparse : json_loads resp = Except.ok v) :
    repairFunction e s (constWorld resp) wb errs = Except.ok (some v) := by
  have hne : pyTruthyStr resp = true := by
    cases hr : (resp == "") with
    | true =>
        have hre : resp = "" := by simpa using hr
        rw [hre, json_loads_empty] at hparse
        exact absurd hparse (by simp)
    | false => simp [pyTruthyStr, hr]
  rw [repairFunction_eq_generic]
  exact repairGeneric_parse_ok _ _ _ _ _ _ _ _ _ rfl rfl hne hparse

/-- C7: the repair closures validate nothing about the widget-block
invariants — whenever the model's response parses as JSON, the closure
returns exactly the parsed value, unchanged and unchecked (in
particular also when `widgetInvariants` fails on it, as the witness
shows). -/
theorem claim_no_invariant_validation (s : Settings) (e : Engine) (wb : Json)
    (errs : List String) (resp : String) (v : Json)
    (hparse : json_loads resp = Except.ok v) :
    repairFunction e s (constWorld resp) wb errs = Except.ok (some v) :=
  repair_constWorld_of_parse s e wb errs resp v hparse

/-- Witness for C7: the response `[1, 2]` parses to a JSON value that
violates every widget-block invariant, yet it is returned as the
repaired block. -/
theorem claim_no_invariant_validation_witness :
    widgetInvariants (Json.arr [Json.num 1, Json.num 2]) = false ∧
    repairFunction Engine.report settingsAllConfigured (constWorld "[1, 2]")
      (Json.obj []) ["labels mismatch"] =
      Except.ok (some (Json.arr [Json.num 1, Json.num 2])) :=
  ⟨rfl, claim_no_invariant_validation settingsAllConfigured Engine.report
      (Json.obj []) ["labels mismatch"] "[1, 2]"
      (Json.arr [Json.num 1, Json.num 2]) rfl⟩

/-- C10: on an empty (falsy) model response the closure returns `None`
without parsing; but a response that parses to a non-object JSON value
is returned as-is, despite the closure's declared `Optional[Dict]`
return annotation. -/
theorem claim_falsy_and_nonobject_response (s : Settings) (e : Engine)
    (wb : Json) (errs : List String) (resp : String) (v : Json) :
    (resp = "" → repairFunction e s (constWorld resp) wb errs = Except.ok none) ∧
    (json_loads resp = Except.ok v → Json.isObj v = false →
      repairFunction e s (constWorld resp) wb errs = Except.ok (some v)) := by
  constructor
  · intro hre
    subst hre
    rw [repairFunction_eq_generic]
    exact repairGeneric_falsy _ _ _ _ _ _ _ _ rfl rfl rfl
  · intro hparse _hobj
    exact repair_constWorld_of_parse s e wb errs resp v hparse

/-- Witness for C10: the empty response gives `None`; the non-object
response `[1, 2]` is handed back unchanged. -/
theorem claim_falsy_and_nonobject_response_witness :
    repairFunction Engine.forum settingsAllConfigured (constWorld "")
      (Json.obj []) [] = Except.ok none ∧
    repairFunction Engine.forum settingsAllConfigured (constWorld "[1, 2]")
      (Json.obj []) [] = Except.ok (some (Json.arr [Json.num 1, Json.num 2])) :=
  ⟨(claim_falsy_and_nonobject_response settingsAllConfigured Engine.forum
      (Json.obj []) [] "" Json.null).1 rfl,
   (claim_falsy_and_nonobject_response settingsAllConfigured Engine.forum
      (Json.obj []) [] "[1, 2]" (Json.arr [Json.num 1, Json.num 2])).2 rfl rfl⟩

/-- C9: `build_chart_repair_prompt` is a pure function of its two
arguments (determinism is by construction in this embedding); its
output contains the `indent=2`, `ensure_ascii=False` JSON serialization
of the widget block, followed by one line per validation error prefixed
with `"- "` in the given order; with no errors the section is empty and
the prompt is still produced. -/
theorem claim_prompt_structure (wb : Json) (errs : List String) :
    build_chart_repair_prompt wb errs =
      promptHead ++ jsonDumps wb ++ promptMid ++ errorsText errs ++ promptTail ∧
    (∃ a b : String, build_chart_repair_prompt wb errs = a ++ jsonDumps wb ++ b) ∧
    errorsText errs = String.intercalate "\n" (errs.map (fun err => "- " ++ err)) ∧
    errorsText [] = "" ∧
    build_chart_repair_prompt wb [] = promptHead ++ jsonDumps wb ++ promptMid ++ promptTail := by
  refine ⟨rfl, ⟨promptHead, promptMid ++ errorsText errs ++ promptTail, ?_⟩, rfl, rfl, ?_⟩
  · simp [build_chart_repair_prompt, String.append_assoc]
  · show promptHead ++ jsonDumps wb ++ promptMid ++ errorsText [] ++ promptTail = _
    rw [show errorsText [] = "" from rfl]
    simp

theorem repairEngineSt_frame (k u m : String) (w : LLMWorld) (st : ArgState) :
    (repairEngineSt k u m w st).2 = st ∧
    (repairEngineSt k u m w st).1 = repairGeneric k u m w st.widget_block st.errors := by
  unfold repairEngineSt tryRepairBodySt repairGeneric tryRepairBody
  cases w.newClient k u m with
  | error err => exact ⟨rfl, rfl⟩
  | ok u2 =>
      cases w.invoke (invokeCallFor k u m st.widget_block st.errors) with
      | error err => exact ⟨rfl, rfl⟩
      | ok resp =>
          by_cases hf : pyTruthyStr resp = false
          · simp [hf]
          · simp only [hf, if_false]
            cases json_loads resp with
            | error err => exact ⟨rfl, rfl⟩
            | ok v => exact ⟨rfl, rfl⟩

/-- C8: under the state-passing semantics of a repair closure, the
argument state (the `widget_block` dict and the `errors` list) comes
back unchanged whatever the world does, while the returned value is
exactly the one computed by the closure — the attempt never mutates its
arguments, whether it succeeds or returns `None`. -/
theorem claim_arguments_not_mutated (e : Engine) (s : Settings) (w : LLMWorld)
    (st : ArgState) :
    (repairEngineSt (engineApiKey e s) (engineBaseUrl e s)
        (pyOrStr (engineModelName e s) "gpt-4") w st).2 = st ∧
    (repairEngineSt (engineApiKey e s) (engineBaseUrl e s)
        (pyOrStr (engineModelName e s) "gpt-4") w st).1 =
      repairFunction e s w st.widget_block st.errors := by
  refine ⟨(repairEngineSt_frame _ _ _ _ _).1, ?_⟩
  rw [repairFunction_eq_generic]
  exact (repairEngineSt_frame _ _ _ _ _).2

theorem objGet_some_obj (j : Json) (k : String) (v : Json) (h : objGet j k = some v) :
    ∃ fields : List (String × Json), j = Json.obj fields := by
  cases j <;> simp [objGet] at h
  exact ⟨_, rfl⟩

theorem sanitize_chapter_blocks_get (cf : List (String × Json)) (blocks : List Json)
    (hch : objGet (.obj cf) "blocks" = some (.arr blocks)) :
    objGet (sanitize_chapter_blocks (.obj cf)) "blocks" =
      some (.arr (blocks.map sanitizeBlock)) := by
  unfold sanitize_chapter_blocks
  rw [hch]
  exact objGet_objSet_obj cf "blocks" _

theorem sanitizeBlock_table (bf : List (String × Json)) (rows : List Json)
    (htype : objGet (.obj bf) "type" = some (.str "table"))
    (hrows : objGet (.obj bf) "rows" = some (.arr rows)) :
    objGet (sanitizeBlock (.obj bf)) "rows" = some (.arr (rows.map sanitizeRow)) := by
  unfold sanitizeBlock
  rw [htype, hrows]
  simp only [reduceIte]
  exact objGet_objSet_obj bf "rows" _

theorem sanitizeRow_cells (rf : List (String × Json)) (cells : List Json)
    (hcells : objGet (.obj rf) "cells" = some (.arr cells)) :
    objGet (sanitizeRow (.obj rf)) "cells" = some (.arr (cells.map sanitizeCell)) := by
  unfold sanitizeRow
  rw [hcells]
  exact objGet_objSet_obj rf "cells" _

theorem cellBlocksMissing_of (cell : Json)
    (h : objGet cell "blocks" = none ∨ objGet cell "blocks" = some Json.null ∨
        objGet cell "blocks" = some (Json.arr [])) :
    cellBlocksMissing cell = true := by
  unfold cellBlocksMissing
  rcases h with h | h | h <;> rw [h]

theorem sanitizeCell_missing (cf : List (String × Json))
    (hmiss : cellBlocksMissing (.obj cf) = true) :
    objGet (sanitizeCell (.obj cf)) "blocks" =
      some (.arr [mkParagraphBlock (cellFallbackText (.obj cf))]) := by
  unfold sanitizeCell
  rw [hmiss]
  simp only [if_true]
  exact objGet_objSet_obj cf "blocks" _

/-- C5: after `_sanitize_chapter_blocks`, a table cell whose `blocks`
entry was an empty list, `None`, or absent, carries a non-empty
`blocks` list in which every block has type `paragraph`. -/
theorem claim_table_cell_blocks_repaired
    (chapter : Json) (blocks : List Json) (i : Nat) (b : Json)
    (rows : List Json) (j : Nat) (rfields : List (String × Json))
    (cells : List Json) (k : Nat) (cell : Json) (cfields : List (String × Json))
    (hch : objGet chapter "blocks" = some (Json.arr blocks))
    (hb : blocks[i]? = some b)
    (htype : objGet b "type" = some (Json.str "table"))
    (hrows : objGet b "rows" = some (Json.arr rows))
    (hrow : rows[j]? = some (Json.obj rfields))
    (hcells : objGet (Json.obj rfields) "cells" = some (Json.arr cells))
    (hcell : cells[k]? = some cell)
    (hcellobj : cell = Json.obj cfields)
    (hempty : objGet cell "blocks" = none ∨ objGet cell "blocks" = some Json.null ∨
        objGet cell "blocks" = some (Json.arr [])) :
    ∃ (blocks2 : List Json) (b2 : Json) (rows2 : List Json) (row2 : Json)
      (cells2 : List Json) (cell2 : Json) (newBlocks : List Json),
      objGet (sanitize_chapter_blocks chapter) "blocks" = some (Json.arr blocks2) ∧
      blocks2[i]? = some b2 ∧
      objGet b2 "rows" = some (Json.arr rows2) ∧
      rows2[j]? = some row2 ∧
      objGet row2 "cells" = some (Json.arr cells2) ∧
      cells2[k]? = some cell2 ∧
      objGet cell2 "blocks" = some (Json.arr newBlocks) ∧
      newBlocks ≠ [] ∧
      ∀ blk ∈ newBlocks, objGet blk "type" = some (Json.str "paragraph") := by
  obtain ⟨chf, rfl⟩ := objGet_some_obj chapter "blocks" _ hch
  obtain ⟨bf, rfl⟩ := objGet_some_obj b "type" _ htype
  refine ⟨blocks.map sanitizeBlock, sanitizeBlock (.obj bf), rows.map sanitizeRow,
      sanitizeRow (.obj rfields), cells.map sanitizeCell, sanitizeCell cell,
      [mkParagraphBlock (cellFallbackText cell)],
      sanitize_chapter_blocks_get chf blocks hch, ?_,
      sanitizeBlock_table bf rows htype hrows, ?_,
      sanitizeRow_cells rfields cells hcells, ?_, ?_, ?_, ?_⟩
  · rw [List.getElem?_map, hb]; rfl
  · rw [List.getElem?_map, hrow]; rfl
  · rw [List.getElem?_map, hcell]; rfl
  · subst hcellobj
    exact sanitizeCell_missing cfields (cellBlocksMissing_of _ hempty)
  · simp
  · intro blk hblk
    rw [List.mem_singleton] at hblk
    subst hblk
    rfl

/-- The chapter of `test_table_cell_empty_blocks_repaired`: one table
with one row of two cells, one with an empty block list, one with a
`text` and `blocks = None`. -/
def testChapterEmptyCells : Json :=
  Json.obj [("blocks", Json.arr [Json.obj [
    ("type", Json.str "table"),
    ("rows", Json.arr [Json.obj [("cells", Json.arr [
        Json.obj [("blocks", Json.arr [])],
        Json.obj [("text", Json.str "同比变化"), ("blocks", Json.null)]])]])]])]

/-- Witness for C5: both cells of the regression test's chapter are
repaired to non-empty all-paragraph block lists. -/
theorem claim_table_cell_blocks_repaired_witness :
    (∃ (blocks2 : List Json) (b2 : Json) (rows2 : List Json) (row2 : Json)
      (cells2 : List Json) (cell2 : Json) (newBlocks : List Json),
      objGet (sanitize_chapter_blocks testChapterEmptyCells) "blocks" = some (Json.arr blocks2) ∧
      blocks2[0]? = some b2 ∧
      objGet b2 "rows" = some (Json.arr rows2) ∧
      rows2[0]? = some row2 ∧
      objGet row2 "cells" = some (Json.arr cells2) ∧
      cells2[0]? = some cell2 ∧
      objGet cell2 "blocks" = some (Json.arr newBlocks) ∧
      newBlocks ≠ [] ∧
      ∀ blk ∈ newBlocks, objGet blk "type" = some (Json.str "paragraph")) ∧
    (∃ (blocks2 : List Json) (b2 : Json) (rows2 : List Json) (row2 : Json)
      (cells2 : List Json) (cell2 : Json) (newBlocks : List Json),
      objGet (sanitize_chapter_blocks testChapterEmptyCells) "blocks" = some (Json.arr blocks2) ∧
      blocks2[0]? = some b2 ∧
      objGet b2 "rows" = some (Json.arr rows2) ∧
      rows2[0]? = some row2 ∧
      objGet row2 "cells" = some (Json.arr cells2) ∧
      cells2[1]? = some cell2 ∧
      objGet cell2 "blocks" = some (Json.arr newBlocks) ∧
      newBlocks ≠ [] ∧
      ∀ blk ∈ newBlocks, objGet blk "type" = some (Json.str "paragraph")) :=
  ⟨claim_table_cell_blocks_repaired testChapterEmptyCells _ 0 _ _ 0 _ _ 0 _
      [("blocks", Json.arr [])] rfl rfl rfl rfl rfl rfl rfl rfl
      (Or.inr (Or.inr rfl)),
   claim_table_cell_blocks_repaired testChapterEmptyCells _ 0 _ _ 0 _ _ 1 _
      [("text", Json.str "同比变化"), ("blocks", Json.null)] rfl rfl rfl rfl rfl rfl rfl rfl
      (Or.inr (Or.inl rfl))⟩

/-- C6: after `_sanitize_chapter_blocks`, a table row that was a bare
string scalar has become a row object with exactly one cell, whose
blocks form a paragraph whose inline text is the original scalar. -/
theorem claim_scalar_row_expanded
    (chapter : Json) (blocks : List Json) (i : Nat) (b : Json)
    (rows : List Json) (j : Nat) (sVal : String)
    (hch : objGet chapter "blocks" = some (Json.arr blocks))
    (hb : blocks[i]? = some b)
    (htype : objGet b "type" = some (Json.str "table"))
    (hrows : objGet b "rows" = some (Json.arr rows))
    (hrow : rows[j]? = some (Json.str sVal)) :
    ∃ (blocks2 : List Json) (b2 : Json) (rows2 : List Json)
      (row2 cell2 para inl : Json),
      objGet (sanitize_chapter_blocks chapter) "blocks" = some (Json.arr blocks2) ∧
      blocks2[i]? = some b2 ∧
      objGet b2 "rows" = some (Json.arr rows2) ∧
      rows2[j]? = some row2 ∧
      objGet row2 "cells" = some (Json.arr [cell2]) ∧
      objGet cell2 "blocks" = some (Json.arr [para]) ∧
      objGet para "type" = some (Json.str "paragraph") ∧
      objGet para "inlines" = some (Json.arr [inl]) ∧
      objGet inl "text" = some (Json.str sVal) := by
  obtain ⟨chf, rfl⟩ := objGet_some_obj chapter "blocks" _ hch
  obtain ⟨bf, rfl⟩ := objGet_some_obj b "type" _ htype
  refine ⟨blocks.map sanitizeBlock, sanitizeBlock (.obj bf), rows.map sanitizeRow,
      sanitizeRow (Json.str sVal),
      Json.obj [("blocks", Json.arr [mkParagraphBlock sVal])],
      mkParagraphBlock sVal, mkTextInline sVal,
      sanitize_chapter_blocks_get chf blocks hch, ?_,
      sanitizeBlock_table bf rows htype hrows, ?_,
      rfl, rfl, rfl, rfl, rfl⟩
  · rw [List.getElem?_map, hb]; rfl
  · rw [List.getElem?_map, hrow]; rfl

/-- The chapter of `test_table_rows_scalar_values_expanded`: one table
whose single row is the bare string scalar. -/
def testChapterScalarRow : Json :=
  Json.obj [("blocks", Json.arr [Json.obj [
    ("type", Json.str "table"),
    ("rows", Json.arr [Json.str "全国趋势"])]])]

/-- Witness for C6 on the regression test's chapter. -/
theorem claim_scalar_row_expanded_witness :
    ∃ (blocks2 : List Json) (b2 : Json) (rows2 : List Json)
      (row2 cell2 para inl : Json),
      objGet (sanitize_chapter_blocks testChapterScalarRow) "blocks" = some (Json.arr blocks2) ∧
      blocks2[0]? = some b2 ∧
      objGet b2 "rows" = some (Json.arr rows2) ∧
      rows2[0]? = some row2 ∧
      objGet row2 "cells" = some (Json.arr [cell2]) ∧
      objGet cell2 "blocks" = some (Json.arr [para]) ∧
      objGet para "type" = some (Json.str "paragraph") ∧
      objGet para "inlines" = some (Json.arr [inl]) ∧
      objGet inl "text" = some (Json.str "全国趋势") :=
  claim_scalar_row_expanded testChapterScalarRow _ 0 _ _ 0 "全国趋势"
    rfl rfl rfl rfl rfl
